import Mathlib

/-!
Verification development for the face-identity alignment-loss orchestrator of
`ldm/modules/arcface_wrapper.py` and the flow-based backward warp of
`gma/test.py`.

Tensors are modelled as nested lists of rationals.  External collaborators
(the RetinaFace localizer, the ArcFace embedder network, bilinear
interpolation, `cv2.remap`, and the cosine-similarity kernel) are abstract
function parameters; batch operations act element-wise over the batch
dimension.
-/

/-- A pixel in RGB order: (red, green, blue) channel values. -/
abbrev Pixel := ℚ × ℚ × ℚ

/-- A color image: rows of RGB pixels (height × width). -/
abbrev Image := List (List Pixel)

/-- A grayscale image: rows of scalar intensities. -/
abbrev GrayImage := List (List ℚ)

/-- A face embedding vector. -/
abbrev Emb := List ℚ

/-- A bounding box of four integer coordinates, as produced by the localizer. -/
abbrev BBox := Nat × Nat × Nat × Nat

/-- Result of `retinaface.crop_faces` (external collaborator, contract only):
foreground crops (`none` when no face was detected anywhere in the batch),
flattened background crops (`none` when absent), foreground bounding boxes,
and indices of batch instances where no face was found. -/
structure CropFacesResult where
  fg_face_crops : Option (List Image)
  bg_face_crops_flat : Option (List Image)
  fg_face_bboxes : List BBox
  failed_inst_indices : List Nat

/-- The face localizer, abstract: arguments are the image batch, the minimum
face size `T`, the crop padding `bleed`, and the whole-image fallback flag. -/
abbrev RetinaFace := List Image → Nat → Nat → Bool → CropFacesResult

/-- The identity embedder network (`self.arcface`), abstract: one embedding
per grayscale crop. -/
abbrev ArcFace := GrayImage → Emb

/-- Bilinear resize to 128×128 without corner alignment (`F.interpolate`,
external library operation), abstract. -/
abbrev Interp := GrayImage → GrayImage

/-- Cosine similarity between two embedding vectors, abstract (it involves a
real square root, outside the rational carrier). -/
abbrev CosSim := Emb → Emb → ℚ

/-- Grayscale conversion of one RGB pixel with the fixed luma weights
0.299 / 0.587 / 0.114, from
`(fg_face_crops * rgb_to_gray_weights).sum(dim=1, keepdim=True)`
(arcface_wrapper.py lines 64-66). -/
def toGrayPixel (p : Pixel) : ℚ :=
  299/1000 * p.1 + 587/1000 * p.2.1 + 114/1000 * p.2.2

/-- Grayscale conversion of a whole crop, pixelwise `toGrayPixel`. -/
def toGrayImage (img : Image) : GrayImage :=
  img.map (fun row => row.map toGrayPixel)

/-- Result 4-tuple of `embed_image_tensor`: foreground embeddings, background
embeddings, foreground bounding boxes, failed-instance indices. -/
structure EmbedResult where
  fg_faces_emb : Option (List Emb)
  bg_faces_emb : Option (List Emb)
  fg_face_bboxes : Option (List BBox)
  failed_inst_indices : List Nat
deriving DecidableEq

/-- Processing of one face crop inside `embed_image_tensor`: grayscale
conversion, then bilinear resize, then the ArcFace forward pass
(arcface_wrapper.py lines 64-70). -/
def processCrop (arcface : ArcFace) (interp : Interp) (c : Image) : Emb :=
  arcface (interp (toGrayImage c))

/-- Body of `embed_image_tensor` after the localizer call
(arcface_wrapper.py lines 55-81).  When `fg_face_crops` is `None` the
function returns `None, None, None, failed_inst_indices`; otherwise the
foreground crops are embedded, and the background crops are embedded exactly
when `embed_bg_faces` is set and background crops exist. -/
def embed_from_crops (arcface : ArcFace) (interp : Interp)
    (r : CropFacesResult) (embed_bg_faces : Bool) : EmbedResult :=
  match r.fg_face_crops with
  | none => ⟨none, none, none, r.failed_inst_indices⟩
  | some fgCrops =>
      ⟨some (fgCrops.map (processCrop arcface interp)),
       (match embed_bg_faces, r.bg_face_crops_flat with
        | true, some bgCrops => some (bgCrops.map (processCrop arcface interp))
        | _, _ => none),
       some r.fg_face_bboxes,
       r.failed_inst_indices⟩

/-- `ArcFaceWrapper.embed_image_tensor` (arcface_wrapper.py lines 49-81):
crop the faces with the localizer, then embed them.  `enable_grad` only
toggles autograd bookkeeping and has no effect on the values computed. -/
def embed_image_tensor (arcface : ArcFace) (interp : Interp)
    (retinaface : RetinaFace) (images_ts : List Image) (T bleed : Nat)
    (embed_bg_faces use_whole_image_if_no_face _enable_grad : Bool) :
    EmbedResult :=
  embed_from_crops arcface interp
    (retinaface images_ts T bleed use_whole_image_if_no_face) embed_bg_faces

/-- Arithmetic mean of a list of rationals (`tensor.mean()`); 0 on the empty
list. -/
def qmean (xs : List ℚ) : ℚ := xs.sum / xs.length

/-- `(aligned_bg_faces_emb**2).mean()` (arcface_wrapper.py line 119): mean of
the squares of all embedding components. -/
def sqMean (embs : List Emb) : ℚ :=
  qmean ((embs.foldr (· ++ ·) []).map (fun x => x * x))

/-- `torch.nn.functional.cosine_embedding_loss`, modelled from its documented
semantics at the default margin 0 and mean reduction, for targets in
\x7b1, -1\x7d: per pair, `1 - cos` when the target is 1 and
`max 0 (cos - 0)` when it is -1; `none` models the runtime shape error the
library raises when the two batches (or the target) disagree in length. -/
def cosine_embedding_loss (cossim : CosSim) (x1 x2 : List Emb)
    (target : List ℚ) : Option ℚ :=
  if x1.length = x2.length ∧ target.length = x1.length then
    some (qmean ((x1.zip (x2.zip target)).map
      (fun p => if p.2.2 = 1 then 1 - cossim p.1 p.2.1
                else max 0 (cossim p.1 p.2.1 - 0))))
  else none

/-- `ref_fg_faces_emb.repeat(k, 1)`: the embedding batch repeated `k` times
along the batch dimension. -/
def repeatRows : Nat → List Emb → List Emb
  | 0, _ => []
  | n + 1, ref => ref ++ repeatRows n ref

/-- Batch-size reconciliation (arcface_wrapper.py lines 110-111): when the
reference batch is strictly smaller, repeat it by the floor ratio of the two
batch sizes; otherwise leave it unchanged. -/
def tile_ref_embs (ref al : List Emb) : List Emb :=
  if ref.length < al.length then repeatRows (al.length / ref.length) ref
  else ref

/-- Result triple of `calc_arcface_align_loss`: alignment loss,
background-suppression loss, and the generated-batch foreground bounding
boxes (`None` on the failure short-circuit path). -/
structure AlignLossResult where
  loss_arcface_align : ℚ
  loss_bg_faces_suppress : ℚ
  aligned_fg_face_bboxes : Option (List BBox)
deriving DecidableEq

/-- Body of `calc_arcface_align_loss` after the two `embed_image_tensor`
calls (arcface_wrapper.py lines 99-127).  A `none` result models a Python
exception (`len(None)`, a zero division in the floor ratio, or the library's
shape error inside `cosine_embedding_loss`); `some` carries the returned
triple. -/
def align_loss_from_embeds (cossim : CosSim) (refR alR : EmbedResult)
    (suppress_bg_faces : Bool) : Option AlignLossResult :=
  if refR.failed_inst_indices.length > 0 then some ⟨0, 0, none⟩
  else if alR.failed_inst_indices.length > 0 then some ⟨0, 0, none⟩
  else
    match refR.fg_faces_emb, alR.fg_faces_emb with
    | some refEmb, some alEmb =>
        match cosine_embedding_loss cossim (tile_ref_embs refEmb alEmb) alEmb
            (List.replicate (tile_ref_embs refEmb alEmb).length 1) with
        | none => none
        | some la =>
            some ⟨la,
              (match suppress_bg_faces, alR.bg_faces_emb with
               | true, some bgEmb => sqMean bgEmb
               | _, _ => 0),
              alR.fg_face_bboxes⟩
    | _, _ => none

/-- `ArcFaceWrapper.calc_arcface_align_loss` (arcface_wrapper.py lines
86-127): embed the reference batch (no background, no gradient), embed the
generated batch (background iff `suppress_bg_faces`, with gradient), then
compute the alignment and background-suppression losses. -/
def calc_arcface_align_loss (cossim : CosSim) (arcface : ArcFace)
    (interp : Interp) (retinaface : RetinaFace)
    (ref_images aligned_images : List Image) (T bleed : Nat)
    (suppress_bg_faces use_whole_image_if_no_face : Bool) :
    Option AlignLossResult :=
  align_loss_from_embeds cossim
    (embed_image_tensor arcface interp retinaface ref_images T bleed
      false false false)
    (embed_image_tensor arcface interp retinaface aligned_images T bleed
      suppress_bg_faces use_whole_image_if_no_face true)
    suppress_bg_faces

/-- Helper: the failure short-circuit of `align_loss_from_embeds`. -/
theorem align_loss_from_embeds_failed (cossim : CosSim)
    (refR alR : EmbedResult) (sbg : Bool)
    (h : refR.failed_inst_indices ≠ [] ∨ alR.failed_inst_indices ≠ []) :
    align_loss_from_embeds cossim refR alR sbg = some ⟨0, 0, none⟩ := by
  unfold align_loss_from_embeds
  rcases h with h | h
  · simp [List.length_pos.mpr h]
  · by_cases h0 : refR.failed_inst_indices.length > 0
    · simp [h0]
    · simp [h0, List.length_pos.mpr h]

/-- C1: if either of the two `embed_image_tensor` calls inside
`calc_arcface_align_loss` reports a non-empty failed-instance index list,
the function returns a zero alignment loss, a zero background-suppression
loss, and `none` in place of bounding boxes, computing no loss over the
remaining instances. -/
theorem calc_arcface_align_loss_zero_on_failed (cossim : CosSim)
    (arcface : ArcFace) (interp : Interp) (retinaface : RetinaFace)
    (ref_images aligned_images : List Image) (T bleed : Nat) (sbg uw : Bool)
    (h : (embed_image_tensor arcface interp retinaface ref_images T bleed
            false false false).failed_inst_indices ≠ []
       ∨ (embed_image_tensor arcface interp retinaface aligned_images T bleed
            sbg uw true).failed_inst_indices ≠ []) :
    calc_arcface_align_loss cossim arcface interp retinaface ref_images
      aligned_images T bleed sbg uw = some ⟨0, 0, none⟩ :=
  align_loss_from_embeds_failed cossim _ _ sbg h

/-- Witness for C1: a concrete localizer that fails on instance 0 makes the
loss short-circuit to zeros. -/
theorem calc_arcface_align_loss_zero_on_failed_witness :
    (embed_image_tensor (fun _ => []) id (fun _ _ _ _ => ⟨none, none, [], [0]⟩)
        [] 20 2 false false false).failed_inst_indices ≠ [] ∧
    calc_arcface_align_loss (fun _ _ => 0) (fun _ => []) id
        (fun _ _ _ _ => ⟨none, none, [], [0]⟩) [] [] 20 2 true false
      = some ⟨0, 0, none⟩ :=
  ⟨by decide,
   calc_arcface_align_loss_zero_on_failed _ _ _ _ _ _ _ _ _ _
     (Or.inl (by decide))⟩

/-- Helper: length of a repeated embedding batch. -/
theorem repeatRows_length (n : Nat) (ref : List Emb) :
    (repeatRows n ref).length = n * ref.length := by
  induction n with
  | zero => simp [repeatRows]
  | succ k ih =>
      simp only [repeatRows, List.length_append, ih, Nat.succ_mul]
      omega

/-- Helper: element `i` of a repeated embedding batch is element
`i % ref.length` of the original batch. -/
theorem repeatRows_getD (ref : List Emb) (n i : Nat)
    (h : i < n * ref.length) :
    (repeatRows n ref).getD i [] = ref.getD (i % ref.length) [] := by
  induction n generalizing i with
  | zero => simp at h
  | succ k ih =>
      by_cases hi : i < ref.length
      · rw [repeatRows, List.getD_append _ _ _ _ hi, Nat.mod_eq_of_lt hi]
      · have hle : ref.length ≤ i := Nat.le_of_not_lt hi
        rw [repeatRows, List.getD_append_right _ _ _ _ hle, ih,
          ← Nat.mod_eq_sub_mod hle]
        have h' : i < k * ref.length + ref.length := by
          rw [Nat.succ_mul] at h; exact h
        generalize k * ref.length = m at *
        omega

/-- C2: whenever the reference embedding batch is strictly smaller than the
generated batch and its size divides the generated size, the tiled reference
batch has exactly the generated batch's length and its `i`-th row is the
original row `i % ref.length`, so the two batches align one-to-one in
order. -/
theorem tile_ref_embs_tiles_by_ratio (ref al : List Emb)
    (hlt : ref.length < al.length) (hdvd : ref.length ∣ al.length) :
    (tile_ref_embs ref al).length = al.length ∧
    ∀ i, i < al.length →
      (tile_ref_embs ref al).getD i [] = ref.getD (i % ref.length) [] := by
  have hr : 0 < ref.length := by
    rcases Nat.eq_zero_or_pos ref.length with h0 | h0
    · rw [h0] at hdvd
      have := Nat.eq_zero_of_zero_dvd hdvd
      omega
    · exact h0
  have hlen : al.length / ref.length * ref.length = al.length :=
    Nat.div_mul_cancel hdvd
  constructor
  · rw [tile_ref_embs, if_pos hlt, repeatRows_length, hlen]
  · intro i hi
    rw [tile_ref_embs, if_pos hlt, repeatRows_getD]
    rw [hlen]
    exact hi

/-- Witness for C2: one reference embedding against four generated
embeddings tiles to four identical rows. -/
theorem tile_ref_embs_tiles_by_ratio_witness :
    tile_ref_embs [[(1:ℚ)]] [[2],[3],[4],[5]] = [[1],[1],[1],[1]] ∧
    ((tile_ref_embs [[(1:ℚ)]] [[2],[3],[4],[5]]).length
        = ([[(2:ℚ)],[3],[4],[5]] : List Emb).length ∧
      ∀ i, i < ([[(2:ℚ)],[3],[4],[5]] : List Emb).length →
        (tile_ref_embs [[(1:ℚ)]] [[2],[3],[4],[5]]).getD i []
          = ([[(1:ℚ)]] : List Emb).getD (i % ([[(1:ℚ)]] : List Emb).length) []) :=
  ⟨by decide,
   tile_ref_embs_tiles_by_ratio _ _ (by decide) (by decide)⟩

/-- C4: when the localizer returns foreground crops and its output satisfies
the contract that the crop count plus the failed count equals the batch
size, `embed_image_tensor` returns a foreground embedding batch whose length
plus the failed count equals the input batch length; in particular, with
zero failed instances the embedding batch length equals the input batch
length. -/
theorem embed_image_tensor_fg_count
    (arcface : ArcFace) (interp : Interp) (retinaface : RetinaFace)
    (images : List Image) (T bleed : Nat) (ebg uw eg : Bool)
    (crops : List Image)
    (hc : (retinaface images T bleed uw).fg_face_crops = some crops)
    (hlen : crops.length
        + (retinaface images T bleed uw).failed_inst_indices.length
        = images.length) :
    ∃ embs,
      (embed_image_tensor arcface interp retinaface images T bleed ebg uw
          eg).fg_faces_emb = some embs ∧
      embs.length
        + (embed_image_tensor arcface interp retinaface images T bleed ebg uw
            eg).failed_inst_indices.length = images.length ∧
      ((embed_image_tensor arcface interp retinaface images T bleed ebg uw
          eg).failed_inst_indices = [] → embs.length = images.length) := by
  refine ⟨crops.map (processCrop arcface interp), ?_, ?_, ?_⟩
  · simp [embed_image_tensor, embed_from_crops, hc]
  · simp [embed_image_tensor, embed_from_crops, hc]
    omega
  · intro h0
    simp only [embed_image_tensor, embed_from_crops, hc] at h0 ⊢
    simp only [h0, List.length_nil, Nat.add_zero] at hlen
    simp [hlen]

/-- Witness for C4: a localizer returning one crop and no failures on a
one-image batch yields one embedding. -/
theorem embed_image_tensor_fg_count_witness :
    (((fun _ _ _ _ => ⟨some [([] : Image)], none, [], []⟩ : RetinaFace)
        ([[]] : List Image) 20 0 false).fg_face_crops
      = some [([] : Image)]) ∧
    ∃ embs,
      (embed_image_tensor (fun _ => []) id
          (fun _ _ _ _ => ⟨some [([] : Image)], none, [], []⟩)
          ([[]] : List Image) 20 0 true false
          true).fg_faces_emb = some embs ∧
      embs.length
        + (embed_image_tensor (fun _ => []) id
            (fun _ _ _ _ => ⟨some [([] : Image)], none, [], []⟩)
            ([[]] : List Image) 20 0 true false
            true).failed_inst_indices.length = ([[]] : List Image).length ∧
      ((embed_image_tensor (fun _ => []) id
          (fun _ _ _ _ => ⟨some [([] : Image)], none, [], []⟩)
          ([[]] : List Image) 20 0 true false
          true).failed_inst_indices = [] →
        embs.length = ([[]] : List Image).length) :=
  ⟨by decide,
   embed_image_tensor_fg_count _ _ _ _ _ _ _ _ _ [([] : Image)]
     (by decide) (by decide)⟩

/-- C5: when the localizer reports no foreground face anywhere in the batch,
`embed_image_tensor` returns `none` for the embeddings and bounding boxes
and preserves the failed-instance index list. -/
theorem embed_image_tensor_none_when_no_faces
    (arcface : ArcFace) (interp : Interp) (retinaface : RetinaFace)
    (images : List Image) (T bleed : Nat) (ebg uw eg : Bool)
    (h : (retinaface images T bleed uw).fg_face_crops = none) :
    embed_image_tensor arcface interp retinaface images T bleed ebg uw eg =
      ⟨none, none, none,
        (retinaface images T bleed uw).failed_inst_indices⟩ := by
  unfold embed_image_tensor embed_from_crops
  rw [h]

/-- Witness for C5: a localizer that finds no faces makes all positional
outputs `none` while the failed list survives. -/
theorem embed_image_tensor_none_when_no_faces_witness :
    (((fun _ _ _ _ => ⟨none, none, [], [0, 1]⟩ : RetinaFace) [[], []] 20 0
        false).fg_face_crops = none) ∧
    embed_image_tensor (fun _ => []) id
        (fun _ _ _ _ => ⟨none, none, [], [0, 1]⟩) [[], []] 20 0 true false
        true = ⟨none, none, none, [0, 1]⟩ :=
  ⟨by decide,
   embed_image_tensor_none_when_no_faces _ _ _ _ _ _ _ _ _ (by decide)⟩

/-- Helper: a non-divisible batch ratio leaves the tiled reference batch with
a length different from the generated batch's. -/
theorem tile_ref_embs_length_ne (ref al : List Emb)
    (h : ¬ ref.length ∣ al.length) :
    (tile_ref_embs ref al).length ≠ al.length := by
  unfold tile_ref_embs
  by_cases hlt : ref.length < al.length
  · rw [if_pos hlt, repeatRows_length]
    intro heq
    exact h ⟨al.length / ref.length, by rw [Nat.mul_comm]; exact heq.symm⟩
  · rw [if_neg hlt]
    intro heq
    exact h (heq ▸ dvd_refl _)

/-- Helper: the loss body hits the library shape error (modelled as `none`)
when the reference embedding count does not divide the generated one. -/
theorem align_loss_from_embeds_none_of_ndvd (cossim : CosSim)
    (refR alR : EmbedResult) (sbg : Bool) (refEmb alEmb : List Emb)
    (h1 : refR.failed_inst_indices = []) (h2 : alR.failed_inst_indices = [])
    (h3 : refR.fg_faces_emb = some refEmb) (h4 : alR.fg_faces_emb = some alEmb)
    (h : ¬ refEmb.length ∣ alEmb.length) :
    align_loss_from_embeds cossim refR alR sbg = none := by
  unfold align_loss_from_embeds
  rw [h1, h2, h3, h4]
  simp only [List.length_nil, gt_iff_lt, Nat.lt_irrefl, if_false]
  have hne := tile_ref_embs_length_ne refEmb alEmb h
  rw [cosine_embedding_loss, if_neg (fun hc => hne hc.1)]

/-- C3: when both embedding calls succeed with no failed instances but the
reference embedding count does not divide the generated embedding count,
`calc_arcface_align_loss` ends in an error (the modelled shape error of the
cosine-embedding-loss library call) instead of computing a misaligned or
truncated loss. -/
theorem calc_arcface_align_loss_errors_on_non_multiple (cossim : CosSim)
    (arcface : ArcFace) (interp : Interp) (retinaface : RetinaFace)
    (ref_images aligned_images : List Image) (T bleed : Nat) (sbg uw : Bool)
    (refEmb alEmb : List Emb)
    (hreff : (embed_image_tensor arcface interp retinaface ref_images T bleed
        false false false).failed_inst_indices = [])
    (half : (embed_image_tensor arcface interp retinaface aligned_images T
        bleed sbg uw true).failed_inst_indices = [])
    (href : (embed_image_tensor arcface interp retinaface ref_images T bleed
        false false false).fg_faces_emb = some refEmb)
    (hal : (embed_image_tensor arcface interp retinaface aligned_images T
        bleed sbg uw true).fg_faces_emb = some alEmb)
    (hndvd : ¬ refEmb.length ∣ alEmb.length) :
    calc_arcface_align_loss cossim arcface interp retinaface ref_images
      aligned_images T bleed sbg uw = none :=
  align_loss_from_embeds_none_of_ndvd cossim _ _ sbg refEmb alEmb hreff half
    href hal hndvd

/-- Witness for C3: two reference embeddings against five generated
embeddings error out. -/
theorem calc_arcface_align_loss_errors_on_non_multiple_witness :
    calc_arcface_align_loss (fun _ _ => 0) (fun _ => []) id
      (fun imgs _ _ _ =>
        ⟨some (if imgs.length = 1 then [[], []] else [[], [], [], [], []]),
         none, [], []⟩)
      [[]] [[], []] 20 2 true false = none :=
  calc_arcface_align_loss_errors_on_non_multiple _ _ _ _ _ _ _ _ _ _
    [[], []] [[], [], [], [], []]
    (by decide) (by decide) (by decide) (by decide) (by decide)

/-- A localizer identical to `rf` except that it never reports background
crops; used to express that a computation never touches them. -/
def eraseBgCrops (rf : RetinaFace) : RetinaFace :=
  fun imgs T bleed uw => { rf imgs T bleed uw with bg_face_crops_flat := none }

/-- Helper: with `embed_bg_faces = false`, `embed_image_tensor` is
insensitive to the localizer's background crops. -/
theorem embed_image_tensor_no_bg_indep (arcface : ArcFace) (interp : Interp)
    (retinaface : RetinaFace) (images : List Image) (T bleed : Nat)
    (uw eg : Bool) :
    embed_image_tensor arcface interp retinaface images T bleed false uw eg =
      embed_image_tensor arcface interp (eraseBgCrops retinaface) images T
        bleed false uw eg := by
  unfold embed_image_tensor embed_from_crops eraseBgCrops
  cases hf : (retinaface images T bleed uw).fg_face_crops <;> simp [hf]

/-- Helper: with no background crops from the localizer, no background
embeddings are produced. -/
theorem embed_image_tensor_bg_none (arcface : ArcFace) (interp : Interp)
    (retinaface : RetinaFace) (images : List Image) (T bleed : Nat)
    (ebg uw eg : Bool)
    (h : (retinaface images T bleed uw).bg_face_crops_flat = none) :
    (embed_image_tensor arcface interp retinaface images T bleed ebg uw
        eg).bg_faces_emb = none := by
  unfold embed_image_tensor embed_from_crops
  cases hf : (retinaface images T bleed uw).fg_face_crops <;>
    cases ebg <;> simp [hf, h]

/-- Helper: any returned background-suppression loss is zero when
suppression is off. -/
theorem align_loss_from_embeds_bg_zero_off (cossim : CosSim)
    (refR alR : EmbedResult) (r : AlignLossResult)
    (h : align_loss_from_embeds cossim refR alR false = some r) :
    r.loss_bg_faces_suppress = 0 := by
  unfold align_loss_from_embeds at h
  repeat' split at h
  all_goals simp_all
  all_goals (subst h; rfl)

/-- Helper: any returned background-suppression loss is zero when the
generated batch produced no background embeddings. -/
theorem align_loss_from_embeds_bg_zero_none (cossim : CosSim)
    (refR alR : EmbedResult) (r : AlignLossResult)
    (hbg : alR.bg_faces_emb = none)
    (h : align_loss_from_embeds cossim refR alR true = some r) :
    r.loss_bg_faces_suppress = 0 := by
  unfold align_loss_from_embeds at h
  rw [hbg] at h
  repeat' split at h
  all_goals simp_all
  all_goals (subst h; rfl)

/-- C6: with `suppress_bg_faces = false`, `calc_arcface_align_loss` never
touches background crops (its result is unchanged when the localizer's
background crops are erased, so the embedder is never invoked on them) and
any returned background-suppression loss is zero; and when suppression is
requested but the localizer found no background faces, the returned
background-suppression loss is zero rather than an error. -/
theorem calc_arcface_align_loss_bg_suppression (cossim : CosSim)
    (arcface : ArcFace) (interp : Interp) (retinaface : RetinaFace)
    (ref_images aligned_images : List Image) (T bleed : Nat) (uw : Bool) :
    (calc_arcface_align_loss cossim arcface interp retinaface ref_images
        aligned_images T bleed false uw
      = calc_arcface_align_loss cossim arcface interp
          (eraseBgCrops retinaface) ref_images aligned_images T bleed false
          uw) ∧
    (∀ r, calc_arcface_align_loss cossim arcface interp retinaface ref_images
        aligned_images T bleed false uw = some r →
      r.loss_bg_faces_suppress = 0) ∧
    ((retinaface aligned_images T bleed uw).bg_face_crops_flat = none →
      ∀ r, calc_arcface_align_loss cossim arcface interp retinaface
          ref_images aligned_images T bleed true uw = some r →
        r.loss_bg_faces_suppress = 0) := by
  refine ⟨?_, ?_, ?_⟩
  · unfold calc_arcface_align_loss
    rw [← embed_image_tensor_no_bg_indep arcface interp retinaface ref_images
          T bleed false false,
        ← embed_image_tensor_no_bg_indep arcface interp retinaface
          aligned_images T bleed uw true]
  · intro r h
    exact align_loss_from_embeds_bg_zero_off cossim _ _ r h
  · intro hbg r h
    exact align_loss_from_embeds_bg_zero_none cossim _ _ r
      (embed_image_tensor_bg_none arcface interp retinaface aligned_images T
        bleed true uw true hbg) h

/-- Witness for C6: concrete localizers with and without background crops. -/
theorem calc_arcface_align_loss_bg_suppression_witness :
    (calc_arcface_align_loss (fun _ _ => 1) (fun _ => [1]) id
        (fun imgs _ _ _ =>
          ⟨some imgs, some [([] : Image)], [(0, 0, 0, 0)], []⟩)
        [[]] [[]] 20 2 false false
      = calc_arcface_align_loss (fun _ _ => 1) (fun _ => [1]) id
          (eraseBgCrops (fun imgs _ _ _ =>
            ⟨some imgs, some [([] : Image)], [(0, 0, 0, 0)], []⟩))
          [[]] [[]] 20 2 false false) ∧
    (⟨0, 0, some [(0, 0, 0, 0)]⟩ : AlignLossResult).loss_bg_faces_suppress
        = 0 ∧
    (⟨0, 0, some [(0, 0, 0, 0)]⟩ : AlignLossResult).loss_bg_faces_suppress
        = 0 :=
  ⟨(calc_arcface_align_loss_bg_suppression (fun _ _ => 1) (fun _ => [1]) id
      (fun imgs _ _ _ =>
        ⟨some imgs, some [([] : Image)], [(0, 0, 0, 0)], []⟩)
      [[]] [[]] 20 2 false).1,
   (calc_arcface_align_loss_bg_suppression (fun _ _ => 1) (fun _ => [1]) id
      (fun imgs _ _ _ =>
        ⟨some imgs, some [([] : Image)], [(0, 0, 0, 0)], []⟩)
      [[]] [[]] 20 2 false).2.1 _
     (by norm_num [calc_arcface_align_loss, align_loss_from_embeds,
        embed_image_tensor, embed_from_crops, processCrop, toGrayImage,
        tile_ref_embs, cosine_embedding_loss, qmean, sqMean]),
   (calc_arcface_align_loss_bg_suppression (fun _ _ => 1) (fun _ => [1]) id
      (fun imgs _ _ _ => ⟨some imgs, none, [(0, 0, 0, 0)], []⟩)
      [[]] [[]] 20 2 false).2.2 (by decide) _
     (by norm_num [calc_arcface_align_loss, align_loss_from_embeds,
        embed_image_tensor, embed_from_crops, processCrop, toGrayImage,
        tile_ref_embs, cosine_embedding_loss, qmean, sqMean])⟩

/-- Helper: with an all-ones target of matching length, the modelled
cosine-embedding loss reduces to the mean of `1 - cos` over the pairs. -/
theorem cosine_embedding_loss_ones_eq (cossim : CosSim) :
    ∀ x1 x2 : List Emb, x1.length = x2.length →
      cosine_embedding_loss cossim x1 x2 (List.replicate x1.length 1)
        = some (qmean (List.zipWith (fun a b => 1 - cossim a b) x1 x2)) := by
  have key : ∀ x1 x2 : List Emb, x1.length = x2.length →
      (x1.zip (x2.zip (List.replicate x1.length (1:ℚ)))).map
        (fun p => if p.2.2 = 1 then 1 - cossim p.1 p.2.1
                  else max 0 (cossim p.1 p.2.1 - 0))
        = List.zipWith (fun a b => 1 - cossim a b) x1 x2 := by
    intro x1
    induction x1 with
    | nil => intro x2 h; simp
    | cons a t ih =>
        intro x2 h
        cases x2 with
        | nil => simp at h
        | cons b t2 =>
            simp only [List.length_cons, List.replicate_succ, List.zip_cons_cons,
              List.map_cons, List.zipWith_cons_cons]
            rw [ih t2 (by simpa using h)]
            simp
  intro x1 x2 h
  unfold cosine_embedding_loss
  rw [if_pos ⟨h, List.length_replicate _ _⟩, key x1 x2 h]

/-- C7: on the success path (no failed instances, both embeddings present,
tiled reference batch matching the generated batch in length), the alignment
loss returned by `calc_arcface_align_loss` is exactly the mean over pairs of
`1 - cos` between the tiled reference embeddings and the generated
foreground embeddings. -/
theorem calc_arcface_align_loss_mean_cosine (cossim : CosSim)
    (arcface : ArcFace) (interp : Interp) (retinaface : RetinaFace)
    (ref_images aligned_images : List Image) (T bleed : Nat) (sbg uw : Bool)
    (refEmb alEmb : List Emb)
    (hreff : (embed_image_tensor arcface interp retinaface ref_images T bleed
        false false false).failed_inst_indices = [])
    (half : (embed_image_tensor arcface interp retinaface aligned_images T
        bleed sbg uw true).failed_inst_indices = [])
    (href : (embed_image_tensor arcface interp retinaface ref_images T bleed
        false false false).fg_faces_emb = some refEmb)
    (hal : (embed_image_tensor arcface interp retinaface aligned_images T
        bleed sbg uw true).fg_faces_emb = some alEmb)
    (hlen : (tile_ref_embs refEmb alEmb).length = alEmb.length) :
    ∃ r, calc_arcface_align_loss cossim arcface interp retinaface ref_images
        aligned_images T bleed sbg uw = some r ∧
      r.loss_arcface_align
        = qmean (List.zipWith (fun a b => 1 - cossim a b)
            (tile_ref_embs refEmb alEmb) alEmb) := by
  unfold calc_arcface_align_loss align_loss_from_embeds
  rw [hreff, half, href, hal]
  simp only [List.length_nil, gt_iff_lt, Nat.lt_irrefl, if_false]
  rw [cosine_embedding_loss_ones_eq cossim _ _ hlen]
  exact ⟨_, rfl, rfl⟩

/-- Witness for C7: a concrete success-path run whose alignment loss is the
mean of `1 - cos` over the single pair. -/
theorem calc_arcface_align_loss_mean_cosine_witness :
    ∃ r, calc_arcface_align_loss (fun _ _ => 0) (fun _ => [1]) id
        (fun imgs _ _ _ => ⟨some imgs, none, [], []⟩) [[]] [[]] 20 2 true
        false = some r ∧
      r.loss_arcface_align
        = qmean (List.zipWith (fun _ _ => (1:ℚ) - 0)
            (tile_ref_embs [[1]] [[1]]) [[1]]) :=
  calc_arcface_align_loss_mean_cosine _ _ _ _ _ _ _ _ _ _ [[1]] [[1]]
    (by decide) (by decide) (by decide) (by decide) (by decide)

/-- C8: the grayscale conversion used on face crops weighs the RGB channels
with the fixed luma coefficients 0.299 / 0.587 / 0.114; in particular a pure
red pixel (255, 0, 0) maps to 255 × 0.299, and inside `embed_image_tensor`
every foreground crop is grayscale-converted and then resized before the
embedder runs on it. -/
theorem toGray_luma_weights :
    toGrayPixel (255, 0, 0) = 255 * (299/1000) ∧
    (∀ r g b : ℚ, toGrayPixel (r, g, b)
        = 299/1000 * r + 587/1000 * g + 114/1000 * b) ∧
    (∀ (arcface : ArcFace) (interp : Interp) (retinaface : RetinaFace)
        (images : List Image) (T bleed : Nat) (ebg uw eg : Bool)
        (crops : List Image),
      (retinaface images T bleed uw).fg_face_crops = some crops →
      (embed_image_tensor arcface interp retinaface images T bleed ebg uw
          eg).fg_faces_emb
        = some (crops.map (fun c => arcface (interp (toGrayImage c))))) := by
  refine ⟨by norm_num [toGrayPixel], fun r g b => rfl, ?_⟩
  intro arcface interp retinaface images T bleed ebg uw eg crops hc
  unfold embed_image_tensor embed_from_crops
  rw [hc]
  rfl

/-- Witness for C8: a localizer returning a single red-pixel crop flows
through the grayscale-then-resize-then-embed pipeline. -/
theorem toGray_luma_weights_witness :
    (((fun _ _ _ _ => ⟨some [([[(255, 0, 0)]] : Image)], none, [], []⟩ :
        RetinaFace) ([[]] : List Image) 20 0 false).fg_face_crops
      = some [([[(255, 0, 0)]] : Image)]) ∧
    (embed_image_tensor (fun _ => []) id
        (fun _ _ _ _ => ⟨some [([[(255, 0, 0)]] : Image)], none, [], []⟩)
        ([[]] : List Image) 20 0 false false false).fg_faces_emb
      = some [([] : Emb)] :=
  ⟨by decide,
   toGray_luma_weights.2.2 (fun _ => []) id
     (fun _ _ _ _ => ⟨some [([[(255, 0, 0)]] : Image)], none, [], []⟩)
     ([[]] : List Image) 20 0 false false false
     [([[(255, 0, 0)]] : Image)] (by decide)⟩

/-- The character sequence of the substring `module.` removed from
checkpoint keys at construction. -/
def moduleDotChars : List Char := ['m', 'o', 'd', 'u', 'l', 'e', '.']

/-- Python's `key.replace("module.", "")` (arcface_wrapper.py line 30):
remove every non-overlapping occurrence of the substring `module.`,
scanning left to right — not only a leading prefix occurrence. -/
def stripModule : List Char → List Char
  | 'm' :: 'o' :: 'd' :: 'u' :: 'l' :: 'e' :: '.' :: rest => stripModule rest
  | c :: cs => c :: stripModule cs
  | [] => []

/-- A checkpoint key is a character sequence. -/
abbrev Key := List Char

/-- The checkpoint mapping, as the ordered dictionary Python uses: key and
parameter value pairs (a rational stands in for the tensor). -/
abbrev StateDict := List (Key × ℚ)

/-- Python's ordered-dict `pop(key)`: remove the binding of `key` and return
its value. -/
def dictPop : StateDict → Key → Option ℚ × StateDict
  | [], _ => (none, [])
  | (k, v) :: rest, key =>
      if k = key then (some v, rest)
      else
        let r := dictPop rest key
        (r.1, (k, v) :: r.2)

/-- Python's ordered-dict assignment `d[key] = v`: replace the value in
place when the key is present, otherwise append the new binding at the
end. -/
def dictAssign : StateDict → Key → ℚ → StateDict
  | [], key, v => [(key, v)]
  | (k, w) :: rest, key, v =>
      if k = key then (k, v) :: rest else (k, w) :: dictAssign rest key v

/-- One iteration of the renaming loop (arcface_wrapper.py lines 29-31):
`ckpt_state_dict[new_key] = ckpt_state_dict.pop(key)` with
`new_key = key.replace("module.", "")`. -/
def renameStep (d : StateDict) (key : Key) : StateDict :=
  match dictPop d key with
  | (some v, d') => dictAssign d' (stripModule key) v
  | (none, d') => d'

/-- The renaming loop of `ArcFaceWrapper.__init__` (arcface_wrapper.py lines
28-31), iterating over the snapshot `list(ckpt_state_dict.keys())`. -/
def rename_state_dict (d : StateDict) : StateDict :=
  (d.map Prod.fst).foldl renameStep d

/-- Helper: popping the head key returns its value and the tail. -/
theorem dictPop_cons_self (k : Key) (v : ℚ) (d : StateDict) :
    dictPop ((k, v) :: d) k = (some v, d) := by
  simp [dictPop]

/-- Helper: assigning an absent key appends the binding at the end. -/
theorem dictAssign_not_mem (d : StateDict) (k : Key) (v : ℚ)
    (h : k ∉ d.map Prod.fst) : dictAssign d k v = d ++ [(k, v)] := by
  induction d with
  | nil => rfl
  | cons p rest ih =>
      obtain ⟨k0, v0⟩ := p
      simp only [List.map_cons, List.mem_cons] at h
      push_neg at h
      rw [dictAssign, if_neg (fun hk => h.1 hk.symm), ih h.2]
      rfl

/-- Helper: the renaming loop, under a no-collision discipline, moves every
binding to its stripped key; `acc` holds the already-renamed bindings. -/
theorem renameLoop_spec (d : StateDict) : ∀ acc : StateDict,
    (d.map Prod.fst).Nodup →
    (∀ k1 ∈ d.map Prod.fst, ∀ k2 ∈ d.map Prod.fst,
      stripModule k1 = k2 → k1 = k2) →
    ((d.map Prod.fst).map stripModule).Nodup →
    (∀ k ∈ d.map Prod.fst, stripModule k ∉ acc.map Prod.fst) →
    (d.map Prod.fst).foldl renameStep (d ++ acc)
      = acc ++ d.map (fun p => (stripModule p.1, p.2)) := by
  induction d with
  | nil =>
      intro acc _ _ _ _
      simp
  | cons p rest ih =>
      obtain ⟨k0, v0⟩ := p
      intro acc hnd hcol hnd2 hacc
      have hk0rest : stripModule k0 ∉ rest.map Prod.fst := by
        intro hmem
        have hk := hcol k0 (by rw [List.map_cons]; exact List.mem_cons_self _ _)
          (stripModule k0)
          (by rw [List.map_cons]; exact List.mem_cons_of_mem _ hmem) rfl
        rw [List.map_cons, List.nodup_cons] at hnd
        exact hnd.1 (hk ▸ hmem)
      have hk0acc : stripModule k0 ∉ acc.map Prod.fst :=
        hacc k0 (by rw [List.map_cons]; exact List.mem_cons_self _ _)
      have hassign :
          dictAssign (rest ++ acc) (stripModule k0) v0
            = rest ++ (acc ++ [(stripModule k0, v0)]) := by
        rw [dictAssign_not_mem, List.append_assoc]
        rw [List.map_append, List.mem_append]
        rintro (h | h)
        · exact hk0rest h
        · exact hk0acc h
      have hstep :
          renameStep (((k0, v0) :: rest) ++ acc) k0
            = rest ++ (acc ++ [(stripModule k0, v0)]) := by
        rw [List.cons_append, renameStep, dictPop_cons_self]
        exact hassign
      rw [List.map_cons, List.foldl_cons, hstep]
      rw [ih (acc ++ [(stripModule k0, v0)])]
      · simp
      · rw [List.map_cons, List.nodup_cons] at hnd
        exact hnd.2
      · intro k1 h1 k2 h2 heq
        exact hcol k1 (by rw [List.map_cons]; exact List.mem_cons_of_mem _ h1)
          k2 (by rw [List.map_cons]; exact List.mem_cons_of_mem _ h2) heq
      · rw [List.map_cons, List.map_cons, List.nodup_cons] at hnd2
        exact hnd2.2
      · intro k hk
        rw [List.map_append, List.mem_append]
        rintro (h | h)
        · exact hacc k
            (by rw [List.map_cons]; exact List.mem_cons_of_mem _ hk) h
        · rw [List.map_cons, List.map_cons, List.nodup_cons] at hnd2
          simp only [List.map_cons, List.map_nil, List.mem_singleton] at h
          exact hnd2.1 (h ▸ List.mem_map_of_mem stripModule hk)

/-- Counterexample for C9: the key `a.module.b` does not begin with
`module.`, yet the renaming loop changes it to `a.b` — the code removes the
substring everywhere, not only as a leading prefix, so keys without that
leading occurrence are not left unchanged and the renamed mapping does not
contain the original key name. -/
theorem rename_state_dict_counterexample :
    ("a.module.b".toList.take 7 ≠ moduleDotChars) ∧
    rename_state_dict [("a.module.b".toList, (0:ℚ))]
      = [("a.b".toList, 0)] ∧
    "a.module.b".toList
      ∉ (rename_state_dict [("a.module.b".toList, (0:ℚ))]).map Prod.fst := by
  refine ⟨by decide, by decide, by decide⟩

/-- C9 (amended): at construction, every occurrence of the substring
`module.` is removed from each checkpoint key; when the original keys are
pairwise distinct, the renamed keys are pairwise distinct, and no renamed
key collides with a different original key, the mapping after renaming
contains exactly the renamed key names paired with their original values. -/
theorem rename_state_dict_strips_all (d : StateDict)
    (hnd : (d.map Prod.fst).Nodup)
    (hcol : ∀ k1 ∈ d.map Prod.fst, ∀ k2 ∈ d.map Prod.fst,
      stripModule k1 = k2 → k1 = k2)
    (hnd2 : ((d.map Prod.fst).map stripModule).Nodup) :
    rename_state_dict d = d.map (fun p => (stripModule p.1, p.2)) := by
  have h := renameLoop_spec d [] hnd hcol hnd2 (by simp)
  rw [rename_state_dict]
  rw [List.append_nil] at h
  simpa using h

/-- Witness for C9's amended claim: a two-key checkpoint with one
`module.`-prefixed key renames to the stripped keys with their values. -/
theorem rename_state_dict_strips_all_witness :
    rename_state_dict
        [("module.conv.w".toList, (3:ℚ)), ("fc.b".toList, 5)]
      = [("module.conv.w".toList, (3:ℚ)), ("fc.b".toList, 5)].map
          (fun p => (stripModule p.1, p.2)) :=
  rename_state_dict_strips_all _ (by decide)
    (by decide) (by decide)

/-- A two-component flow vector (x-displacement, y-displacement). -/
abbrev FlowVec := ℚ × ℚ

/-- An optical-flow field: rows of flow vectors (height × width × 2). -/
abbrev FlowArray := List (List FlowVec)

/-- A color image in row-major layout, as `cv2` hands it over. -/
abbrev ImageArr := List (List Pixel)

/-- A store of numpy flow arrays: mutable array objects addressed by
reference, so that in-place updates and `.copy()` are observable. -/
structure NpStore where
  arrays : List FlowArray

/-- Read the array behind reference `r`. -/
def NpStore.get (s : NpStore) (r : Nat) : FlowArray :=
  s.arrays.getD r []

/-- Overwrite the array behind reference `r` in place. -/
def NpStore.write (s : NpStore) (r : Nat) (a : FlowArray) : NpStore :=
  ⟨s.arrays.set r a⟩

/-- Allocate a fresh array (numpy `.copy()` target) and return its
reference. -/
def NpStore.alloc (s : NpStore) (a : FlowArray) : NpStore × Nat :=
  (⟨s.arrays ++ [a]⟩, s.arrays.length)

/-- `flow1to2[:, :, 0] += np.arange(W)` (gma/test.py line 12): add the
column index to every x-component, with `W` taken from the image shape. -/
def addColIndex (W : Nat) (a : FlowArray) : FlowArray :=
  a.map (fun row => (row.zip (List.range W)).map
    (fun p => (p.1.1 + (p.2 : ℚ), p.1.2)))

/-- `flow1to2[:, :, 1] += np.arange(H)[:, None]` (gma/test.py line 13): add
the row index to every y-component, with `H` taken from the image shape. -/
def addRowIndex (H : Nat) (a : FlowArray) : FlowArray :=
  (a.zip (List.range H)).map
    (fun p => p.1.map (fun xy => (xy.1, xy.2 + (p.2 : ℚ))))

/-- `backward_warp_by_flow` (gma/test.py lines 9-15): copy the flow field,
shift the copy to absolute coordinates in place, and remap the image by it
(`cv2.remap` is the abstract parameter).  The flow argument is passed by
reference into the store so that mutation of the caller's array would be
observable. -/
def backward_warp_by_flow (remap : ImageArr → FlowArray → ImageArr)
    (s : NpStore) (image2 : ImageArr) (flowRef : Nat) : NpStore × ImageArr :=
  let H := image2.length
  let W := (image2.headD []).length
  let p := NpStore.alloc s (NpStore.get s flowRef)
  let s1 := p.1
  let copyRef := p.2
  let s2 := NpStore.write s1 copyRef (addColIndex W (NpStore.get s1 copyRef))
  let s3 := NpStore.write s2 copyRef (addRowIndex H (NpStore.get s2 copyRef))
  (s3, remap image2 (NpStore.get s3 copyRef))

/-- Helper: setting the freshly appended slot rewrites only that slot. -/
theorem append_singleton_set {α : Type} (l : List α) (a x : α) :
    (l ++ [a]).set l.length x = l ++ [x] := by
  induction l with
  | nil => rfl
  | cons b t ih =>
      show b :: (t ++ [a]).set t.length x = b :: (t ++ [x])
      rw [ih]

/-- C10: `backward_warp_by_flow` never mutates the caller's flow array —
for every valid flow reference, the array behind it is unchanged by the
call; only the internal copy receives the coordinate-grid adjustment. -/
theorem backward_warp_by_flow_preserves_flow
    (remap : ImageArr → FlowArray → ImageArr) (s : NpStore)
    (image2 : ImageArr) (flowRef : Nat) (h : flowRef < s.arrays.length) :
    NpStore.get (backward_warp_by_flow remap s image2 flowRef).1 flowRef
      = NpStore.get s flowRef := by
  simp only [backward_warp_by_flow, NpStore.get, NpStore.write, NpStore.alloc]
  rw [append_singleton_set, append_singleton_set,
    List.getD_append _ _ _ _ h]

/-- Witness for C10: a one-array store is untouched at its only
reference. -/
theorem backward_warp_by_flow_preserves_flow_witness :
    0 < (NpStore.mk [[[((1:ℚ), 2)]]]).arrays.length ∧
    NpStore.get
        (backward_warp_by_flow (fun _ _ => []) ⟨[[[((1:ℚ), 2)]]]⟩ [] 0).1 0
      = NpStore.get ⟨[[[((1:ℚ), 2)]]]⟩ 0 :=
  ⟨by decide, backward_warp_by_flow_preserves_flow _ _ _ _ (by decide)⟩
